import Mathlib

/-!
Verification development for the sshlink repository.

The program under study is a small Go CLI that turns custom sshlink URLs
into SSH sessions in a terminal application.  The core logic lives in
main.go (handleURL, executeSSH) and in the terminals package
(factory.go, linux_terminal.go, warp.go, the generic terminal, and the
scriptable macOS terminals).

handleURL parses the incoming string with the Go standard library
function net/url Parse, checks that the scheme is sshlink and the host
component is non-empty, and then derives the connection target by
removing the first occurrence of the literal sshlink:// from the RAW
input string (strings.Replace with count 1).  The relevant slice of the
standard library parser is embedded below, translated from the Go
sources of net/url (Parse, parse, getScheme, parseAuthority, parseHost,
validOptionalPort, validUserinfo, unescape and shouldEscape for the
host mode).  Strings are handled as lists of characters; Go operates on
bytes, and for the ASCII inputs relevant here the two views agree.
Simplifications, none of which affect the claims: error values carry
simplified (quote-free) messages; the ForceQuery flag and the OmitHost
flag are not stored (both are behaviourally equivalent to the plain
query cut for the stored fields); IPv6 zone identifiers inside a
bracketed host are percent-checked like the rest of the host instead of
receiving the dedicated zone treatment; percent-decoding produces one
character per decoded byte.
-/

deriving instance DecidableEq for Except

namespace GoURL

/-- Control bytes rejected by the Go parser (stringContainsCTLByte). -/
def isCTL (c : Char) : Bool := c.toNat < 0x20 || c.toNat == 0x7f

/-- Cut a list at the first occurrence of a character, as strings.Cut
does in Go: returns the part before, the part after, and whether the
character was found. -/
def cutChar : List Char → Char → (List Char × List Char × Bool)
  | [], _ => ([], [], false)
  | x :: xs, c =>
    if x = c then ([], xs, true)
    else
      let r := cutChar xs c
      (x :: r.1, r.2.1, r.2.2)

/-- Index of the last occurrence of a character (strings.LastIndex). -/
def lastIndexOfAux (c : Char) : List Char → Nat → Option Nat → Option Nat
  | [], _, acc => acc
  | x :: xs, i, acc => lastIndexOfAux c xs (i + 1) (if x = c then some i else acc)

def lastIndexOf (s : List Char) (c : Char) : Option Nat :=
  lastIndexOfAux c s 0 none

/-- strings.HasPrefix on character lists. -/
def hasPrefixL (p s : List Char) : Bool := p.isPrefixOf s

/-- Scheme extraction, translated from getScheme in net/url.  Walks the
string; letters continue the scheme, digits and plus, minus, dot may
continue it but not start it, a colon ends it (a colon first is the
missing protocol scheme error), anything else means the input has no
scheme component. -/
def getSchemeAux (orig : List Char) : List Char → Nat → Except String (List Char × List Char)
  | [], _ => .ok ([], orig)
  | c :: rest, i =>
    if c.isAlpha then getSchemeAux orig rest (i + 1)
    else if c.isDigit || c == '+' || c == '-' || c == '.' then
      (if i = 0 then .ok ([], orig) else getSchemeAux orig rest (i + 1))
    else if c = ':' then
      (if i = 0 then .error "missing protocol scheme" else .ok (orig.take i, rest))
    else .ok ([], orig)

def getScheme (raw : List Char) : Except String (List Char × List Char) :=
  getSchemeAux raw raw 0

/-- ASCII lowering of one character; models strings.ToLower from the Go
standard library on ASCII input (scheme characters are ASCII by
construction, and the terminal names compared by the factory are
ASCII). -/
def goLowerChar (c : Char) : Char :=
  if 65 ≤ c.toNat ∧ c.toNat ≤ 90 then Char.ofNat (c.toNat + 32) else c

def goToLower (s : String) : String := String.mk (s.data.map goLowerChar)

/-- validOptionalPort from net/url: empty, or a colon followed by
decimal digits only. -/
def validOptionalPort : List Char → Bool
  | [] => true
  | ':' :: rest => rest.all Char.isDigit
  | _ => false

/-- Characters permitted unescaped in the host component: the
complement of shouldEscape(c, encodeHost) in net/url. -/
def isHostChar (c : Char) : Bool :=
  c.isAlphanum || c == '-' || c == '_' || c == '.' || c == '~' ||
  c == '!' || c == '$' || c == '&' || c == Char.ofNat 39 || c == '(' || c == ')' ||
  c == '*' || c == '+' || c == ',' || c == ';' || c == '=' || c == ':' ||
  c == '[' || c == ']' || c == '<' || c == '>' || c == '"'

/-- Characters permitted in userinfo: validUserinfo in net/url (any
rune outside this ASCII set, including all non-ASCII runes, is
rejected). -/
def isUserinfoChar (c : Char) : Bool :=
  c.isAlphanum || c == '-' || c == '.' || c == '_' || c == ':' || c == '~' ||
  c == '!' || c == '$' || c == '&' || c == Char.ofNat 39 || c == '(' || c == ')' ||
  c == '*' || c == '+' || c == ',' || c == ';' || c == '=' || c == '%' || c == '@'

def isHexChar (c : Char) : Bool :=
  c.isDigit || ('a' ≤ c && c ≤ 'f') || ('A' ≤ c && c ≤ 'F')

def unhexDigit (c : Char) : Nat :=
  if c.isDigit then c.toNat - 48
  else if 'a' ≤ c ∧ c ≤ 'f' then c.toNat - 97 + 10
  else if 'A' ≤ c ∧ c ≤ 'F' then c.toNat - 65 + 10
  else 0

/-- Percent-escape well-formedness, as checked by unescape in net/url
for the path, userinfo, query and fragment modes (each percent sign
must be followed by two hex digits). -/
def validEscapes : List Char → Bool
  | [] => true
  | '%' :: h1 :: h2 :: rest => isHexChar h1 && isHexChar h2 && validEscapes rest
  | '%' :: _ => false
  | _ :: rest => validEscapes rest

/-- Percent-decoding, assuming validEscapes already holds. -/
def percentDecode : List Char → List Char
  | '%' :: h1 :: h2 :: rest => Char.ofNat (unhexDigit h1 * 16 + unhexDigit h2) :: percentDecode rest
  | c :: rest => c :: percentDecode rest
  | [] => []

/-- unescape in host mode, translated from net/url: percent escapes
need two hex digits, an escape whose first hex digit is below 8 (an
ASCII byte) is only allowed as %25, and every unescaped ASCII character
must be a permitted host character. -/
def unescapeHost : List Char → Except String (List Char)
  | [] => .ok []
  | '%' :: h1 :: h2 :: rest =>
    if isHexChar h1 = false ∨ isHexChar h2 = false then .error "invalid URL escape"
    else if unhexDigit h1 < 8 ∧ ¬(h1 = '2' ∧ h2 = '5') then .error "invalid URL escape"
    else
      match unescapeHost rest with
      | .error e => .error e
      | .ok t => .ok (Char.ofNat (unhexDigit h1 * 16 + unhexDigit h2) :: t)
  | '%' :: _ => .error "invalid URL escape"
  | c :: rest =>
    if c.toNat < 0x80 ∧ isHostChar c = false then .error "invalid character in host name"
    else
      match unescapeHost rest with
      | .error e => .error e
      | .ok t => .ok (c :: t)

/-- parseHost from net/url: a bracketed host must contain a closing
bracket and may be followed only by a valid optional port; otherwise
everything after the last colon must be a valid optional port; then the
whole host is unescaped and validated. -/
def parseHost (host : List Char) : Except String (List Char) :=
  match host with
  | '[' :: _ =>
    match lastIndexOf host ']' with
    | none => .error "missing closing bracket in host"
    | some i =>
      if validOptionalPort (host.drop (i + 1)) = false then .error "invalid port after host"
      else unescapeHost host
  | _ =>
    match lastIndexOf host ':' with
    | some i =>
      if validOptionalPort (host.drop i) = false then .error "invalid port after host"
      else unescapeHost host
    | none => unescapeHost host

/-- parseAuthority from net/url: the userinfo is everything before the
LAST at sign; the host is parsed first, then the userinfo characters
and its percent escapes are validated.  The userinfo is kept in raw
validated form (the handler never reads it). -/
def parseAuthority (authority : List Char) : Except String (Option (List Char) × List Char) :=
  match lastIndexOf authority '@' with
  | none =>
    match parseHost authority with
    | .error e => .error e
    | .ok h => .ok (none, h)
  | some i =>
    let userinfo := authority.take i
    let hostPart := authority.drop (i + 1)
    match parseHost hostPart with
    | .error e => .error e
    | .ok h =>
      if userinfo.all isUserinfoChar = false then .error "invalid userinfo"
      else if validEscapes userinfo = false then .error "invalid URL escape"
      else .ok (some userinfo, h)

/-- The URL record, holding the fields of the Go url.URL that the
handler and the claims touch. -/
structure URL where
  scheme : String
  opaqueData : String
  user : Option String
  host : String
  path : String
  rawQuery : String
  fragment : String
deriving DecidableEq, Repr

/-- parse(rawURL, viaRequest=false) from net/url, for the portion of
the input before any fragment: control characters are rejected, the
star special case is kept, the scheme is split off and lowercased, the
query is cut at the first question mark, a rootless rest with a scheme
is opaque, a schemeless first path segment may not contain a colon, a
double-slash rest carries the authority up to the next slash, and the
remaining path must have well-formed percent escapes. -/
def parseBeforeFrag (chars : List Char) : Except String URL :=
  if chars.any isCTL then .error "invalid control character in URL"
  else if chars = ['*'] then
    .ok { scheme := "", opaqueData := "", user := none, host := "", path := "*", rawQuery := "", fragment := "" }
  else
    match getScheme chars with
    | .error e => .error e
    | .ok (schemeRaw, afterScheme) =>
      let scheme := String.mk (schemeRaw.map goLowerChar)
      let cutQ := cutChar afterScheme '?'
      let rest := cutQ.1
      let rawQuery := String.mk cutQ.2.1
      if hasPrefixL ['/'] rest = false then
        if scheme ≠ "" then
          .ok { scheme := scheme, opaqueData := String.mk rest, user := none, host := "",
                path := "", rawQuery := rawQuery, fragment := "" }
        else
          if (rest.takeWhile (fun c => c != '/')).contains ':' then
            .error "first path segment in URL cannot contain colon"
          else if validEscapes rest = false then .error "invalid URL escape"
          else
            .ok { scheme := scheme, opaqueData := "", user := none, host := "",
                  path := String.mk (percentDecode rest), rawQuery := rawQuery, fragment := "" }
      else
        if hasPrefixL ['/', '/'] rest = true ∧
            (scheme ≠ "" ∨ hasPrefixL ['/', '/', '/'] rest = false) then
          let afterSlashes := rest.drop 2
          let authority := afterSlashes.takeWhile (fun c => c != '/')
          let restPath := afterSlashes.dropWhile (fun c => c != '/')
          match parseAuthority authority with
          | .error e => .error e
          | .ok uh =>
            if validEscapes restPath = false then .error "invalid URL escape"
            else
              .ok { scheme := scheme, opaqueData := "", user := uh.1.map String.mk,
                    host := String.mk uh.2, path := String.mk (percentDecode restPath),
                    rawQuery := rawQuery, fragment := "" }
        else
          if validEscapes rest = false then .error "invalid URL escape"
          else
            .ok { scheme := scheme, opaqueData := "", user := none, host := "",
                  path := String.mk (percentDecode rest), rawQuery := rawQuery, fragment := "" }

/-- url.Parse: the fragment is cut at the first hash mark, the part
before it is parsed, and the fragment percent escapes are validated. -/
def parse (rawURL : String) : Except String URL :=
  let cutF := cutChar rawURL.data '#'
  match parseBeforeFrag cutF.1 with
  | .error e => .error e
  | .ok u =>
    if cutF.2.2 = false then .ok u
    else if validEscapes cutF.2.1 = true then .ok { u with fragment := String.mk (percentDecode cutF.2.1) }
    else .error "invalid URL escape"

end GoURL

/-! The URL handler from main.go. -/

/-- The three error classes the resolution part of handleURL can
produce (main.go lines 232 to 243): a URL parse failure, a scheme other
than sshlink, and an empty host.  The spec names them InvalidURL,
UnsupportedScheme and EmptyTarget. -/
inductive ResolveError where
  | invalidURL (msg : String)
  | unsupportedScheme (scheme : String)
  | noTargetSpecified
deriving DecidableEq, Repr

/-- strings.Replace(s, pat, empty, 1): remove the first occurrence of
pat from s. -/
def replaceFirstL (pat : List Char) : List Char → List Char
  | [] => []
  | c :: rest =>
    if pat.isPrefixOf (c :: rest) then (c :: rest).drop pat.length
    else c :: replaceFirstL pat rest

def replaceFirst (s pat : String) : String := String.mk (replaceFirstL pat.data s.data)

/-- Substring test used to state claims about the scheme prefix. -/
def containsSubstrL (pat : List Char) : List Char → Bool
  | [] => pat.isEmpty
  | c :: rest => pat.isPrefixOf (c :: rest) || containsSubstrL pat rest

def containsSubstr (pat s : String) : Bool := containsSubstrL pat.data s.data

/-- The resolution part of handleURL (main.go lines 231 to 245): parse
the URL, require scheme sshlink, require a non-empty host, and return
the raw input with the first occurrence of sshlink:// removed.  This is
the resolve contract of the spec. -/
def resolveTarget (urlString : String) : Except ResolveError String :=
  match GoURL.parse urlString with
  | .error e => .error (.invalidURL e)
  | .ok u =>
    if u.scheme ≠ "sshlink" then .error (.unsupportedScheme u.scheme)
    else if u.host = "" then .error .noTargetSpecified
    else .ok (replaceFirst urlString "sshlink://")

/-! The terminals package. -/

namespace Terminals

/-- The terminal variants the factory in src/terminals/factory.go can
construct: the scriptable macOS Terminal, iTerm and iTerm2, the
clipboard-relay Warp terminal, and the generic argument-based terminal
parameterised by executable name and argument prefix list. -/
inductive TerminalVariant where
  | macosTerminal
  | iterm
  | iterm2
  | warp
  | generic (name : String) (args : List String)
deriving DecidableEq, Repr

/-- A started child process: executable plus argument list. -/
structure Command where
  exe : String
  args : List String
deriving DecidableEq, Repr

/-- Open of the generic terminal (GenericTerminal.Open): the configured
argument prefix followed by the literal token ssh and the target, started
as a non-blocking child process. -/
def genericTerminalOpen (name : String) (args : List String) (host : String) : Command :=
  { exe := name, args := args ++ ["ssh", host] }

/-- Open of the shell-wrapped Linux terminal, translated from
src/terminals/linux_terminal.go: the terminal executable is started
with tab arguments and an explicit shell -c command string that runs
ssh and then re-executes the shell so the window stays open. -/
def linuxTerminalOpen (name shell host : String) : Command :=
  { exe := name, args := ["--tab", "--", shell, "-c", "ssh " ++ host ++ "; exec " ++ shell] }

/-- createMacOSTerminal from src/terminals/factory.go: a switch on the
lowercased terminal name. -/
def createMacOSTerminal (terminalType : String) : Except String TerminalVariant :=
  let t := GoURL.goToLower terminalType
  if t = "terminal" then .ok .macosTerminal
  else if t = "iterm" then .ok .iterm
  else if t = "iterm2" then .ok .iterm2
  else if t = "warp" then .ok .warp
  else if t = "kitty" then .ok (.generic "kitty" ["-e"])
  else if t = "alacritty" then .ok (.generic "alacritty" ["-e"])
  else if t = "wezterm" then .ok (.generic "wezterm" ["start"])
  else .error ("unsupported terminal: " ++ terminalType)

/-- createLinuxTerminal from src/terminals/factory.go: only
gnome-terminal is known, and it is built as a generic terminal with a
hardcoded /bin/bash -c argument prefix. -/
def createLinuxTerminal (terminalType : String) : Except String TerminalVariant :=
  if GoURL.goToLower terminalType = "gnome-terminal" then
    .ok (.generic "gnome-terminal" ["--tab", "--", "/bin/bash", "-c"])
  else .error ("unsupported terminal: " ++ terminalType)

/-- createWindowsTerminal from src/terminals/factory.go: basic Windows
support, every name yields the cmd terminal and no name ever fails. -/
def createWindowsTerminal (_terminalType : String) : Except String TerminalVariant :=
  .ok (.generic "cmd" ["/c", "start", "cmd", "/k"])

/-- The operating systems runtime.GOOS can report, as far as the
factory distinguishes them. -/
inductive GOOS where
  | darwin
  | linux
  | windows
  | other (name : String)
deriving DecidableEq, Repr

/-- CreateTerminal from src/terminals/factory.go, on the path with no
test override installed (TestCreateTerminal nil): dispatch on the
operating system. -/
def createTerminal : GOOS → String → Except String TerminalVariant
  | .darwin, t => createMacOSTerminal t
  | .linux, t => createLinuxTerminal t
  | .windows, t => createWindowsTerminal t
  | .other osName, _ => .error ("unsupported operating system: " ++ osName)

/-- A shell-wrapped Linux terminal value: name and shell, the two
fields of LinuxTerminal in src/terminals/linux_terminal.go. -/
structure LinuxTerminalData where
  name : String
  shell : String
deriving DecidableEq, Repr

/-- Modelled from the spec: the Linux branch of the current factory is
missing from the provided sources.  src/main.go line 255 calls
terminals.SetUserShell, which no file under src/terminals defines, and
src/terminals/factory.go is a stale revision (it duplicates the
TestCreateTerminal declaration of test_helper.go and never constructs
the LinuxTerminal of linux_terminal.go).  Per the spec, the Linux
default is the shell-wrapped terminal: the factory, seeded with the
detected or configured user shell through the package-level shell
variable, answers the name gnome-terminal with a shell-wrapped
LinuxTerminal carrying that shell, and fails on unknown names. -/
def createLinuxTerminalWithShell (userShell : String) (terminalType : String) :
    Except String LinuxTerminalData :=
  if GoURL.goToLower terminalType = "gnome-terminal" then
    .ok { name := "gnome-terminal", shell := userShell }
  else .error ("unsupported terminal: " ++ terminalType)

end Terminals

/-! Launch orchestration: handleURL feeding executeSSH (main.go lines
231 to 266).  The terminal creation step is a parameter, standing for
terminals.CreateTerminal together with the test override point
(TestCreateTerminal) that factory.go provides for dependency
injection; a terminal is modelled by its name and by the outcome its
Open method returns for a given target. -/

structure TerminalModel where
  name : String
  openResult : String → Except String Unit

/-- What a launch did: the list of targets Open was invoked with, and
the error result handleURL returned. -/
structure LaunchTrace where
  openCalls : List String
  result : Except String Unit
deriving DecidableEq, Repr

/-- The error messages handleURL builds with fmt.Errorf for the three
resolution failures. -/
def resolveErrorMessage : ResolveError → String
  | .invalidURL m => "invalid URL: " ++ m
  | .unsupportedScheme s => "unsupported scheme: " ++ s
  | .noTargetSpecified => "no target specified"

/-- executeSSH (main.go lines 251 to 266): create the terminal, return
the factory error unchanged on failure, otherwise invoke Open exactly
once with the host and return its result unchanged. -/
def executeSSHWith (createTerm : String → Except String TerminalModel)
    (host terminalType : String) : LaunchTrace :=
  match createTerm terminalType with
  | .error e => { openCalls := [], result := .error e }
  | .ok term => { openCalls := [host], result := term.openResult host }

/-- handleURL (main.go lines 231 to 249): resolve the URL, return the
resolver error on failure, otherwise hand the target to executeSSH. -/
def handleURLWith (createTerm : String → Except String TerminalModel)
    (urlString terminalType : String) : LaunchTrace :=
  match resolveTarget urlString with
  | .error e => { openCalls := [], result := .error (resolveErrorMessage e) }
  | .ok target => executeSSHWith createTerm target terminalType

/-! The Warp clipboard-relay terminal (src/terminals/warp.go). -/

namespace Terminals

/-- The observable steps Warp.Open performs, in order. -/
inductive WarpAction where
  | runCommandWithStdin (exe : String) (stdin : String)
  | printWarning (msg : String)
  | printCopiedHint (cmd : String)
  | runCommand (exe : String) (args : List String)
deriving DecidableEq, Repr

/-- Warp.Open, translated from src/terminals/warp.go: build the ssh
command line, pipe it into pbcopy, print a warning if the copy failed
or a paste hint if it succeeded, then launch the Warp application with
open -a and return exactly that launch result.  The outcomes of the two
external commands are parameters. -/
def warpOpen (host : String) (pbcopyResult : Except String Unit)
    (openResult : Except String Unit) : List WarpAction × Except String Unit :=
  let sshCommand := "ssh " ++ host
  let clipboardActions :=
    match pbcopyResult with
    | .error e => [WarpAction.runCommandWithStdin "pbcopy" sshCommand, .printWarning e]
    | .ok _ => [WarpAction.runCommandWithStdin "pbcopy" sshCommand, .printCopiedHint sshCommand]
  (clipboardActions ++ [WarpAction.runCommand "open" ["-a", "Warp"]], openResult)

end Terminals

/-! Helper lemmas. -/

theorem isPrefixOf_append_self (p x : List Char) : p.isPrefixOf (p ++ x) = true := by
  induction p with
  | nil => simp [List.isPrefixOf]
  | cons a as ih => simp [List.isPrefixOf, ih]

theorem replaceFirstL_append (p x : List Char) (hp : p ≠ []) :
    replaceFirstL p (p ++ x) = x := by
  cases p with
  | nil => exact absurd rfl hp
  | cons a as =>
    have hpre : (a :: as).isPrefixOf (a :: (as ++ x)) = true :=
      isPrefixOf_append_self (a :: as) x
    show replaceFirstL (a :: as) (a :: (as ++ x)) = x
    simp only [replaceFirstL]
    rw [if_pos hpre]
    show List.drop (a :: as).length ((a :: as) ++ x) = x
    exact List.drop_left _ _

theorem replaceFirst_strip (A : String) :
    replaceFirst ("sshlink://" ++ A) "sshlink://" = A := by
  unfold replaceFirst
  rw [show ("sshlink://" ++ A).data = "sshlink://".data ++ A.data from rfl]
  rw [replaceFirstL_append _ _ (by decide)]

theorem replaceFirstL_eq_nil (p s : List Char) (h : replaceFirstL p s = []) :
    s = [] ∨ s = p := by
  induction s with
  | nil => exact Or.inl rfl
  | cons c rest ih =>
    simp only [replaceFirstL] at h
    split at h
    · rename_i hpre
      right
      have hp : p <+: c :: rest := List.isPrefixOf_iff_prefix.mp hpre
      have hlen : (c :: rest).length ≤ p.length := List.drop_eq_nil_iff.mp h
      exact (hp.eq_of_length (Nat.le_antisymm hp.length_le hlen)).symm
    · exact absurd h (by simp)

theorem resolveTarget_ok_shape (url t : String) (h : resolveTarget url = .ok t) :
    t = replaceFirst url "sshlink://" := by
  unfold resolveTarget at h
  split at h
  · exact Except.noConfusion h
  · split at h
    · exact Except.noConfusion h
    · split at h
      · exact Except.noConfusion h
      · injection h with h2
        exact h2.symm

theorem resolveTarget_ok_ne_empty (url t : String) (h : resolveTarget url = .ok t) :
    t ≠ "" := by
  intro hemp
  have hshape := resolveTarget_ok_shape url t h
  rw [hemp] at hshape
  have hnil : replaceFirstL ("sshlink://".data) url.data = [] := by
    have h3 := congrArg String.data hshape.symm
    simpa [replaceFirst] using h3
  rcases replaceFirstL_eq_nil _ _ hnil with h1 | h1
  · have hurl : url = "" := by
      cases url with
      | mk d =>
        simp only [] at h1
        rw [show ("" : String) = String.mk [] from rfl]
        exact congrArg String.mk h1
    rw [hurl] at h
    rw [show resolveTarget "" = .error (.unsupportedScheme "") from rfl] at h
    exact Except.noConfusion h
  · have hurl : url = "sshlink://" := by
      cases url with
      | mk d => exact congrArg String.mk h1
    rw [hurl] at h
    rw [show resolveTarget "sshlink://" = .error .noTargetSpecified from rfl] at h
    exact Except.noConfusion h

theorem goLowerChar_idem (c : Char) : GoURL.goLowerChar (GoURL.goLowerChar c) = GoURL.goLowerChar c := by
  unfold GoURL.goLowerChar
  by_cases h : 65 ≤ c.toNat ∧ c.toNat ≤ 90
  · simp only [if_pos h]
    obtain ⟨h1, h2⟩ := h
    generalize c.toNat = n at h1 h2
    interval_cases n <;> decide
  · simp only [if_neg h]

theorem mapLower_idem (l : List Char) :
    (l.map GoURL.goLowerChar).map GoURL.goLowerChar = l.map GoURL.goLowerChar := by
  induction l with
  | nil => rfl
  | cons c rest ih => simp [goLowerChar_idem, ih]

theorem goToLower_idem (s : String) : GoURL.goToLower (GoURL.goToLower s) = GoURL.goToLower s := by
  unfold GoURL.goToLower
  exact congrArg String.mk (mapLower_idem s.data)

/-! Claim theorems. -/

/-- C1, counterexample: the literal example of the claim fails on the
code, because the Go URL parser rejects the non-numeric port named
port, so resolution answers InvalidURL rather than succeeding. -/
theorem c1_nonnumeric_port_counterexample :
    resolveTarget "sshlink://user@host:port" = .error (.invalidURL "invalid port after host") := rfl

/-- C1 (amended): whenever resolution of sshlink:// followed by A
succeeds, the returned target is exactly A (round-trip identity on
everything after the scheme prefix); resolution does succeed on
well-formed authorities, verified here for a user at host with numeric
port and for a bracketed IPv6 literal, which is preserved verbatim.
Resolution does not succeed for EVERY non-empty query-free and
fragment-free A: an authority the URL parser rejects (such as a
non-numeric port) fails with InvalidURL. -/
theorem c1_authority_roundtrip :
    (∀ A t : String, resolveTarget ("sshlink://" ++ A) = .ok t → t = A) ∧
    resolveTarget "sshlink://user@example.com:2222" = .ok "user@example.com:2222" ∧
    resolveTarget "sshlink://user@[2001:db8::1]:22" = .ok "user@[2001:db8::1]:22" := by
  refine ⟨?_, rfl, rfl⟩
  intro A t h
  have hs := resolveTarget_ok_shape _ _ h
  rw [hs, replaceFirst_strip]

/-- C1, witness: the round-trip implication applied at the concrete
input sshlink://server, whose resolution evaluates to ok server. -/
theorem c1_authority_roundtrip_witness : ("server" : String) = "server" :=
  c1_authority_roundtrip.1 "server" "server" (by rfl)

/-- C2: for every resolvable URL and every terminal the injected
factory returns, handleURL invokes Open exactly once with exactly the
resolved target and returns the Open result unchanged; when resolution
or the factory fails, Open is never invoked and the resolver or factory
error is returned unchanged. -/
theorem c2_launch_single_open :
    (∀ (createTerm : String → Except String TerminalModel) (url term t : String)
        (tm : TerminalModel), resolveTarget url = .ok t → createTerm term = .ok tm →
        handleURLWith createTerm url term = { openCalls := [t], result := tm.openResult t }) ∧
    (∀ (createTerm : String → Except String TerminalModel) (url term : String)
        (e : ResolveError), resolveTarget url = .error e →
        handleURLWith createTerm url term =
          { openCalls := [], result := .error (resolveErrorMessage e) }) ∧
    (∀ (createTerm : String → Except String TerminalModel) (url term t : String)
        (e : String), resolveTarget url = .ok t → createTerm term = .error e →
        handleURLWith createTerm url term = { openCalls := [], result := .error e }) := by
  refine ⟨?_, ?_, ?_⟩
  · intro ct url term t tm h1 h2
    unfold handleURLWith executeSSHWith
    rw [h1, h2]
  · intro ct url term e h1
    unfold handleURLWith
    rw [h1]
  · intro ct url term t e h1 h2
    unfold handleURLWith executeSSHWith
    rw [h1, h2]

/-- C2, witness: a mock terminal records exactly one Open call with the
resolved target server and its ok result is passed through. -/
theorem c2_launch_single_open_witness :
    handleURLWith (fun _ => .ok { name := "mock", openResult := fun _ => .ok () })
      "sshlink://server" "mock" = { openCalls := ["server"], result := .ok () } :=
  c2_launch_single_open.1 (fun _ => .ok { name := "mock", openResult := fun _ => .ok () })
    "sshlink://server" "mock" "server"
    { name := "mock", openResult := fun _ => .ok () } (by rfl) (by rfl)

/-- C3: the code keeps query strings and fragments in the resolved
target, because the target is the raw input with the first sshlink://
occurrence removed; resolving sshlink://server?x=1 yields server?x=1,
not server, diverging from the claim. -/
theorem c3_query_fragment_kept :
    resolveTarget "sshlink://server?x=1" = .ok "server?x=1" ∧
    resolveTarget "sshlink://server" = .ok "server" ∧
    resolveTarget "sshlink://server#frag" = .ok "server#frag" ∧
    ("server?x=1" : String) ≠ "server" :=
  ⟨rfl, rfl, rfl, by decide⟩

/-- C4, counterexample: the accepted input sshlink://host/sshlink://x
resolves to the target host/sshlink://x, which still contains the
scheme prefix, because only the first occurrence is removed. -/
theorem c4_double_scheme_counterexample :
    resolveTarget "sshlink://host/sshlink://x" = .ok "host/sshlink://x" ∧
    containsSubstr "sshlink://" "host/sshlink://x" = true :=
  ⟨rfl, rfl⟩

/-- C4 (amended): every successfully resolved target is non-empty; and
when the input is the prefix sshlink:// followed by a remainder that
does not itself contain the prefix, the target contains no occurrence
of the prefix.  The unrestricted prefix-freedom of the claim fails for
inputs holding the prefix more than once. -/
theorem c4_target_invariant_amended :
    (∀ url t : String, resolveTarget url = .ok t → t ≠ "") ∧
    (∀ A t : String, containsSubstr "sshlink://" A = false →
        resolveTarget ("sshlink://" ++ A) = .ok t →
        containsSubstr "sshlink://" t = false) := by
  refine ⟨resolveTarget_ok_ne_empty, ?_⟩
  intro A t hA h
  have hs := resolveTarget_ok_shape _ _ h
  rw [hs, replaceFirst_strip]
  exact hA

/-- C4, witness: at the concrete accepted input
sshlink://user@example.com the target is non-empty and prefix-free. -/
theorem c4_target_invariant_witness :
    ("user@example.com" : String) ≠ "" ∧
    containsSubstr "sshlink://" "user@example.com" = false :=
  ⟨c4_target_invariant_amended.1 "sshlink://user@example.com" "user@example.com" (by rfl),
   c4_target_invariant_amended.2 "user@example.com" "user@example.com" (by rfl) (by rfl)⟩

/-- C5: a string the URL parser rejects resolves to the InvalidURL
error carrying the parser message, and a string that parses with a
scheme other than sshlink (the parsed scheme is lowercased, so case
variants of sshlink are accepted) resolves to the UnsupportedScheme
error carrying that scheme. -/
theorem c5_error_taxonomy :
    (∀ (s e : String), GoURL.parse s = .error e →
        resolveTarget s = .error (.invalidURL e)) ∧
    (∀ (s : String) (u : GoURL.URL), GoURL.parse s = .ok u → u.scheme ≠ "sshlink" →
        resolveTarget s = .error (.unsupportedScheme u.scheme)) := by
  constructor
  · intro s e h
    unfold resolveTarget
    rw [h]
  · intro s u h hs
    unfold resolveTarget
    rw [h]
    simp [hs]

/-- C5, witness: a malformed URI gets InvalidURL and an http URL gets
UnsupportedScheme. -/
theorem c5_error_taxonomy_witness :
    resolveTarget "://x" = .error (.invalidURL "missing protocol scheme") ∧
    resolveTarget "http://x" = .error (.unsupportedScheme "http") :=
  ⟨c5_error_taxonomy.1 "://x" "missing protocol scheme" (by rfl),
   c5_error_taxonomy.2 "http://x" ⟨"http", "", none, "x", "", "", ""⟩ (by rfl) (by decide)⟩

/-- C6: every input that parses with scheme sshlink but an empty host
resolves to the EmptyTarget error (the no target specified message of
the implementation), and the launch pipeline then performs no Open
call. -/
theorem c6_empty_host (url : String) (u : GoURL.URL) (h : GoURL.parse url = .ok u)
    (hs : u.scheme = "sshlink") (hh : u.host = "") :
    resolveTarget url = .error .noTargetSpecified ∧
    (∀ (createTerm : String → Except String TerminalModel) (term : String),
        handleURLWith createTerm url term =
          { openCalls := [], result := .error "no target specified" }) := by
  have hres : resolveTarget url = .error .noTargetSpecified := by
    unfold resolveTarget
    rw [h]
    simp [hs, hh]
  refine ⟨hres, ?_⟩
  intro ct term
  unfold handleURLWith
  rw [hres]
  rfl

/-- C6, witness: the bare input sshlink:// fails with the EmptyTarget
error and never reaches a terminal. -/
theorem c6_empty_host_witness :
    resolveTarget "sshlink://" = .error .noTargetSpecified ∧
    handleURLWith (fun _ => .error "no terminal") "sshlink://" "terminal" =
      { openCalls := [], result := .error "no target specified" } := by
  have h := c6_empty_host "sshlink://" ⟨"sshlink", "", none, "", "", "", ""⟩ (by rfl) rfl rfl
  exact ⟨h.1, h.2 (fun _ => .error "no terminal") "terminal"⟩

/-- C7, counterexample: on Windows the factory never fails; the unknown
name nonexistent yields the cmd terminal instead of the
UnsupportedTerminal error the claim requires on every OS. -/
theorem c7_windows_counterexample :
    Terminals.createTerminal .windows "nonexistent" =
      .ok (.generic "cmd" ["/c", "start", "cmd", "/k"]) := rfl

/-- C7 (amended): on darwin and linux every terminal name outside the
lookup table of the OS fails with the unsupported terminal error, but
on windows CreateTerminal succeeds for every name, always returning the
cmd terminal. -/
theorem c7_unknown_terminal_amended :
    (∀ name : String, GoURL.goToLower name ∉
        (["terminal", "iterm", "iterm2", "warp", "kitty", "alacritty", "wezterm"] : List String) →
        Terminals.createMacOSTerminal name = .error ("unsupported terminal: " ++ name)) ∧
    (∀ name : String, GoURL.goToLower name ≠ "gnome-terminal" →
        Terminals.createLinuxTerminal name = .error ("unsupported terminal: " ++ name)) ∧
    (∀ name : String, Terminals.createTerminal .windows name =
        .ok (.generic "cmd" ["/c", "start", "cmd", "/k"])) := by
  refine ⟨?_, ?_, fun _ => rfl⟩
  · intro name h
    simp only [List.mem_cons, List.not_mem_nil, or_false, not_or] at h
    obtain ⟨h1, h2, h3, h4, h5, h6, h7⟩ := h
    unfold Terminals.createMacOSTerminal
    simp [h1, h2, h3, h4, h5, h6, h7]
  · intro name h
    unfold Terminals.createLinuxTerminal
    simp [h]

/-- C7, witness: the unknown name nonexistent fails on darwin and on
linux. -/
theorem c7_unknown_terminal_witness :
    Terminals.createMacOSTerminal "nonexistent" = .error "unsupported terminal: nonexistent" ∧
    Terminals.createLinuxTerminal "nonexistent" = .error "unsupported terminal: nonexistent" :=
  ⟨c7_unknown_terminal_amended.1 "nonexistent" (by decide),
   c7_unknown_terminal_amended.2.1 "nonexistent" (by decide)⟩

/-- C8: factory lookup is case-insensitive on the terminal name (names
with equal lowercasings, in particular a name and its lowercased form,
yield the same terminal variant or both fail) and deterministic (equal
inputs yield equal results). -/
theorem c8_factory_case_insensitive :
    (∀ (os : Terminals.GOOS) (n1 n2 : String), GoURL.goToLower n1 = GoURL.goToLower n2 →
        (Terminals.createTerminal os n1).toOption = (Terminals.createTerminal os n2).toOption) ∧
    (∀ (os : Terminals.GOOS) (n : String),
        (Terminals.createTerminal os n).toOption =
          (Terminals.createTerminal os (GoURL.goToLower n)).toOption) ∧
    (∀ (os : Terminals.GOOS) (n1 n2 : String), n1 = n2 →
        Terminals.createTerminal os n1 = Terminals.createTerminal os n2) := by
  have key : ∀ (os : Terminals.GOOS) (n1 n2 : String), GoURL.goToLower n1 = GoURL.goToLower n2 →
      (Terminals.createTerminal os n1).toOption = (Terminals.createTerminal os n2).toOption := by
    intro os n1 n2 h
    cases os with
    | darwin =>
      simp only [Terminals.createTerminal, Terminals.createMacOSTerminal]
      rw [h]
      split_ifs <;> rfl
    | linux =>
      simp only [Terminals.createTerminal, Terminals.createLinuxTerminal]
      rw [h]
      split_ifs <;> rfl
    | windows => rfl
    | other osName => rfl
  exact ⟨key, fun os n => key os n (GoURL.goToLower n) (goToLower_idem n).symm,
    fun os n1 n2 h => by rw [h]⟩

/-- C8, witness: the upper-case spelling ITERM2 resolves to the same
variant as iterm2 on darwin. -/
theorem c8_factory_case_insensitive_witness :
    (Terminals.createTerminal .darwin "ITERM2").toOption =
      (Terminals.createTerminal .darwin "iterm2").toOption :=
  c8_factory_case_insensitive.1 .darwin "ITERM2" "iterm2" (by decide)

/-- C9: the Linux factory (modelled from the spec, see
createLinuxTerminalWithShell) answers gnome-terminal with the
shell-wrapped terminal carrying the configured user shell, and the Open
of that terminal (translated from linux_terminal.go) launches the
terminal executable with the SSH invocation wrapped in an explicit
shell -c command string that keeps the shell open afterwards. -/
theorem c9_linux_shell_wrapped (sh host : String) :
    Terminals.createLinuxTerminalWithShell sh "gnome-terminal" =
      .ok { name := "gnome-terminal", shell := sh } ∧
    Terminals.linuxTerminalOpen "gnome-terminal" sh host =
      { exe := "gnome-terminal",
        args := ["--tab", "--", sh, "-c", "ssh " ++ host ++ "; exec " ++ sh] } := by
  constructor
  · unfold Terminals.createLinuxTerminalWithShell
    rw [if_pos (by decide)]
  · rfl

/-- C10: for every target, Warp Open first pipes the ssh command line
into pbcopy, then launches the Warp application, and returns exactly
the launch result; a clipboard failure only changes the printed message
and never the returned error or the fact that the launch is
attempted. -/
theorem c10_warp_clipboard_relay (host : String) (pbcopyResult openResult : Except String Unit) :
    (Terminals.warpOpen host pbcopyResult openResult).2 = openResult ∧
    (Terminals.warpOpen host pbcopyResult openResult).1.head? =
      some (.runCommandWithStdin "pbcopy" ("ssh " ++ host)) ∧
    (Terminals.warpOpen host pbcopyResult openResult).1.getLast? =
      some (.runCommand "open" ["-a", "Warp"]) := by
  cases pbcopyResult <;> simp [Terminals.warpOpen]
